import Mathlib

/-!
# WarRoomChat — Room Session State Synchronizer: verification development

Shallow embedding of the client-side chat-state logic of the WarRoomChat
repository (ChatContext's `sendMessage`, the realtime messages INSERT handler,
`findReplyTarget`, `toggleAIMute`, `joinRoom`, `createRoom`), of the
`useMentions.detectMention` scanner, of `KlusterAIService.generateResponse`,
and of the SQL presence function `get_room_participants_with_presence`.

JavaScript strings are modelled as Lean `String` / `List Char`; JS
`String.prototype.includes` is modelled as an executable infix test on the
character lists; timestamps are modelled as `Int` seconds; fallible network
calls are modelled by passing their outcome (`Except`) as an explicit argument.
-/

/-! ## JS string primitives -/

/-- `listIsPrefix n h = true` iff `n` is a prefix of `h` (executable). -/
def listIsPrefix : List Char → List Char → Bool
  | [], _ => true
  | _ :: _, [] => false
  | a :: as, b :: bs => a == b && listIsPrefix as bs

/-- `listIsInfix n h = true` iff `n` occurs contiguously in `h` (executable);
models JS `h.includes(n)`. -/
def listIsInfix (needle : List Char) : List Char → Bool
  | [] => needle.isEmpty
  | c :: rest => listIsPrefix needle (c :: rest) || listIsInfix needle rest

/-- JS `s.includes(sub)`. -/
def jsIncludes (s sub : String) : Bool := listIsInfix sub.toList s.toList

/-- JS `s.toLowerCase()` on the character list (ASCII case mapping, which is
what matters for the `"@ai"` / keyword checks in this code base). -/
def jsToLowerList (s : String) : List Char := s.toList.map Char.toLower

/-- JS `s.toLowerCase().includes(sub)`. -/
def jsIncludesLower (s sub : String) : Bool := listIsInfix sub.toList (jsToLowerList s)

/-- The AI-mention check used verbatim at both trigger sites in the source:
`content.includes('@AI') || content.toLowerCase().includes('@ai')`. -/
def mentionsAI (content : String) : Bool :=
  jsIncludes content "@AI" || jsIncludesLower content "@ai"

/-- JS regex `/\s/` on a single character (the whitespace class used by
`detectMention`): ASCII whitespace plus the Unicode space separators, NEL
excluded, BOM included, exactly as ECMAScript defines `\s`. -/
def jsIsSpace (c : Char) : Bool :=
  c == ' ' || c == '\t' || c == '\n' || c == '\r' || c == '\x0b' || c == '\x0c' ||
  c == ' ' || c == ' ' || c == ' ' || c == ' ' || c == ' ' ||
  c == ' ' || c == ' ' || c == ' ' || c == ' ' || c == ' ' ||
  c == ' ' || c == ' ' || c == ' ' || c == ' ' || c == ' ' ||
  c == ' ' || c == ' ' || c == '　' || c == '﻿'

/-! ## Data model (ChatContext interfaces) -/

/-- `ChatMessage` from ChatContext (reply metadata omitted: none of the
modelled operations reads it back). `timestamp` is seconds. -/
structure ChatMessage where
  id : String
  roomId : String
  userId : String
  userName : String
  userColor : String
  content : String
  isAI : Bool
  timestamp : Int
deriving DecidableEq, Repr

/-- `RoomSettings` from ChatContext (the optional audit fields are not read
by any modelled operation). -/
structure RoomSettings where
  roomId : String
  isAIMuted : Bool
deriving DecidableEq, Repr

/-- `ChatRoom` from ChatContext (participants omitted: not touched by the
operations modelled here). -/
structure Room where
  id : String
  name : String
  messages : List ChatMessage
  settings : RoomSettings
deriving DecidableEq, Repr

/-- The authenticated user as seen by ChatContext. -/
structure User where
  id : String
  name : String
  color : String
deriving DecidableEq, Repr

/-- A storage-layer error (shape of a Supabase error object). -/
structure DBError where
  message : String
deriving DecidableEq, Repr

/-- The row echoed back by `insert().select().single()` on the `messages`
table, also the payload of a realtime INSERT event. -/
structure DBRow where
  id : String
  room_id : String
  user_id : String
  user_name : String
  user_color : String
  content : String
  is_ai : Bool
  created_at : Int
deriving DecidableEq, Repr

/-- Conversion of a `messages` row to a `ChatMessage`, as written in both the
realtime handler and the `sendMessage` success branch. -/
def rowToMessage (r : DBRow) : ChatMessage :=
  { id := r.id, roomId := r.room_id, userId := r.user_id, userName := r.user_name,
    userColor := r.user_color, content := r.content, isAI := r.is_ai,
    timestamp := r.created_at }

/-! ## The two paths that apply a durable message -/

/-- The message-list update of the realtime `messages` INSERT handler
(`setupRealtimeSubscriptions`): dedup by id, else append. -/
def handleInsertEvent (msgs : List ChatMessage) (newMsg : ChatMessage) : List ChatMessage :=
  if msgs.any (fun m => m.id == newMsg.id) then msgs else msgs ++ [newMsg]

/-- The provisional-to-durable reconciliation of `sendMessage`'s success
branch: `messages.map(m => m.id === tempId ? realMessage : m)`. -/
def reconcileProvisional (msgs : List ChatMessage) (tempId : String)
    (real : ChatMessage) : List ChatMessage :=
  msgs.map (fun m => if m.id == tempId then real else m)

/-- Number of entries of the list carrying a given id. -/
def countWithId (msgs : List ChatMessage) (i : String) : Nat :=
  (msgs.filter (fun m => m.id == i)).length

/-- A concrete provisional message, as built by `sendMessage("hello")`. -/
def provMsg : ChatMessage :=
  { id := "temp_1700000000000_abc123def", roomId := "room_1", userId := "u1",
    userName := "userA", userColor := "#FF0000", content := "hello",
    isAI := false, timestamp := 1000 }

/-- The durable row the storage layer assigns to that same message. -/
def durableRow : DBRow :=
  { id := "msg-durable-42", room_id := "room_1", user_id := "u1",
    user_name := "userA", user_color := "#FF0000", content := "hello",
    is_ai := false, created_at := 1000 }

/-! ## Client state and the `sendMessage` operation -/

/-- The mutable client state owned by ChatContext that `sendMessage` can
touch: current room, rooms list, the pending-provisional-id set
(`pendingMessagesRef`, modelled as a list), and the AI-busy flag. -/
structure ClientState where
  user : Option User
  currentRoom : Option Room
  rooms : List Room
  pending : List String
  isAIResponding : Bool
  supabaseConfigured : Bool
deriving DecidableEq, Repr

/-- What a `sendMessage` call leaves behind: the new state, the error it
re-raises (`thrown`, `none` when it returns normally), and whether the
AI-turn sub-protocol (busy flag, probe, generate, AI insert) was entered. -/
structure SendResult where
  state : ClientState
  thrown : Option DBError
  aiTriggered : Bool
deriving DecidableEq, Repr

/-- `sendMessage(content)` from ChatContext, with the outside world made
explicit: `tempId` is the generated provisional id, `now` the clock reading,
and `insertResult` the outcome of the `messages` insert round-trip.

Mirrors the source: guard (`!user || !currentRoom || !isSupabaseConfigured()`)
returns silently; optimistic append + pending-add happen first; on insert
error the provisional entry is filtered out, the pending id removed, and the
error re-thrown; on success the provisional entry is mapped to the durable row
and the AI-turn condition `!isAIMuted && (content.includes('@AI') ||
content.toLowerCase().includes('@ai'))` decides whether the asynchronous AI
sub-protocol starts (which sets the busy flag). -/
def sendMessage (st : ClientState) (content : String) (tempId : String)
    (now : Int) (insertResult : Except DBError DBRow) : SendResult :=
  match st.user, st.currentRoom with
  | some user, some room =>
    if st.supabaseConfigured then
      let optimistic : ChatMessage :=
        { id := tempId, roomId := room.id, userId := user.id,
          userName := user.name, userColor := user.color, content := content,
          isAI := false, timestamp := now }
      let pending1 := tempId :: st.pending
      let msgs1 := room.messages ++ [optimistic]
      match insertResult with
      | .error e =>
        { state := { st with
            pending := pending1.filter (fun x => x != tempId),
            currentRoom := some { room with
              messages := msgs1.filter (fun m => m.id != tempId) } },
          thrown := some e, aiTriggered := false }
      | .ok row =>
        let real := rowToMessage row
        let msgs2 := reconcileProvisional msgs1 tempId real
        let trigger := !room.settings.isAIMuted && mentionsAI content
        { state := { st with
            pending := pending1.filter (fun x => x != tempId),
            currentRoom := some { room with messages := msgs2 },
            isAIResponding := if trigger then true else st.isAIResponding },
          thrown := none, aiTriggered := trigger }
    else { state := st, thrown := none, aiTriggered := false }
  | _, _ => { state := st, thrown := none, aiTriggered := false }

/-! ## `findReplyTarget` -/

/-- The question/help-request pattern test of `findReplyTarget`, verbatim:
`content.includes('?')` or the lowercased content contains one of the
interrogative keywords. -/
def questionLike (c : String) : Bool :=
  jsIncludes c "?" || jsIncludesLower c "how" || jsIncludesLower c "what" ||
  jsIncludesLower c "why" || jsIncludesLower c "when" || jsIncludesLower c "where" ||
  jsIncludesLower c "can you" || jsIncludesLower c "could you" || jsIncludesLower c "help"

/-- The first `for` loop of `findReplyTarget`, acting on the reversed list
(the source iterates `i` from the last index down to 0): skip AI messages;
on the first non-AI message, return it if the triggering content mentions
the AI; otherwise return it if it looks like a question; otherwise keep
scanning. -/
def findReplyTargetRev (content : String) : List ChatMessage → Option ChatMessage
  | [] => none
  | m :: rest =>
    if m.isAI then findReplyTargetRev content rest
    else if mentionsAI content then some m
    else if questionLike m.content then some m
    else findReplyTargetRev content rest

/-- The second `for` loop of `findReplyTarget` (fallback), on the reversed
list: the most recent non-AI message. -/
def firstNonAIRev : List ChatMessage → Option ChatMessage
  | [] => none
  | m :: rest => if m.isAI then firstNonAIRev rest else some m

/-- `findReplyTarget(content, recentMessages)` from ChatContext. -/
def findReplyTarget (content : String) (recentMessages : List ChatMessage) :
    Option ChatMessage :=
  match findReplyTargetRev content recentMessages.reverse with
  | some m => some m
  | none => firstNonAIRev recentMessages.reverse

/-- The history of spec test 5: userA asks, userB answers, userA triggers the
AI. `sendMessage` computes the reply target from
`currentRoomRef.current.messages`, which by then contains the triggering
message itself. -/
def msgPlan : ChatMessage :=
  { id := "m1", roomId := "room_1", userId := "ua", userName := "userA",
    userColor := "#FF0000", content := "what\x27s the plan?", isAI := false,
    timestamp := 1 }

def msgNotSure : ChatMessage :=
  { id := "m2", roomId := "room_1", userId := "ub", userName := "userB",
    userColor := "#00FF00", content := "not sure", isAI := false,
    timestamp := 2 }

def msgTrigger : ChatMessage :=
  { id := "m3", roomId := "room_1", userId := "ua", userName := "userA",
    userColor := "#FF0000", content := "@AI can you help?", isAI := false,
    timestamp := 3 }

/-! ## `useMentions.detectMention` -/

/-- JS `text[i]` for the scanner: out-of-range access yields `undefined`,
which both tests of the loop (`=== '@'` and `/\s/.test`) reject, so any
non-`@`, non-space default character reproduces the behavior. -/
def charAt (text : List Char) (i : Nat) : Char := text.getD i 'x'

/-- The backward `for` loop of `detectMention`, examining indices `i, i-1,
..., 0`: an `@` at position 0 or immediately after whitespace is the mention
start; plain whitespace aborts the scan; any other character (including an
`@` not preceded by whitespace) keeps scanning. -/
def scanBack (text : List Char) : Nat → Option Nat
  | 0 => if charAt text 0 == '@' then some 0 else none
  | i + 1 =>
    if charAt text (i + 1) == '@' then
      if jsIsSpace (charAt text i) then some (i + 1) else scanBack text i
    else if jsIsSpace (charAt text (i + 1)) then none
    else scanBack text i

/-- JS `text.slice(a, b)` for `0 ≤ a ≤ b` (as used by `detectMention`). -/
def jsSlice (text : List Char) (a b : Nat) : List Char := (text.drop a).take (b - a)

/-- `detectMention(text, cursorPosition)`: the mention-trigger core of
`useMentions` (the dropdown-state bookkeeping and pixel positioning are UI
glue). Returns the active query, or `none` when no trigger is active. The
final guard `query.includes(' ')` is transcribed from the source even though
the backward scan already rules a space out. -/
def detectMention (text : List Char) (cursor : Nat) : Option (List Char) :=
  match cursor with
  | 0 => none
  | c + 1 =>
    match scanBack text c with
    | none => none
    | some s =>
      let query := jsSlice text (s + 1) (c + 1)
      if query.contains ' ' then none else some query

/-- The declarative trigger condition the spec states for `detectMention`:
position `s` holds an `@` that sits at offset 0 or right after whitespace,
lies before the cursor, and no whitespace occurs between it and the cursor. -/
def ActiveTriggerAt (text : List Char) (cursor s : Nat) : Prop :=
  s < cursor ∧ charAt text s = '@' ∧
  (s = 0 ∨ jsIsSpace (charAt text (s - 1)) = true) ∧
  (∀ j, s < j → j < cursor → jsIsSpace (charAt text j) = false)

/-! ## Presence (`get_room_participants_with_presence`) -/

/-- A row of the `messages` table as the presence query reads it. -/
structure DBMsgRow where
  userId : String
  isAI : Bool
  createdAt : Int
deriving DecidableEq, Repr

/-- The `LEFT JOIN` subquery: `MAX(created_at)` over the user's non-AI
messages in the room, `none` when the user has none (SQL `NULL`). -/
def lastMessageTime (msgs : List DBMsgRow) (uid : String) : Option Int :=
  ((msgs.filter fun m => m.userId == uid && !m.isAI).map (fun m => m.createdAt)).max?

/-- The `CASE WHEN m.last_message_time > now() - interval '10 minutes'` test
of `get_room_participants_with_presence`; `NULL > _` is not true in SQL, so a
user with no non-AI messages is offline. Time is in seconds (600 s = 10 min). -/
def isOnline (msgs : List DBMsgRow) (uid : String) (now : Int) : Bool :=
  match lastMessageTime msgs uid with
  | some t => decide (t > now - 600)
  | none => false

/-! ## `KlusterAIService.generateResponse` -/

/-- One `{role, content}` entry of the completion request. -/
structure AIChatMsg where
  role : String
  content : String
deriving DecidableEq, Repr

/-- The system prompt template of `generateResponse` (with the room name
interpolated at its three occurrence sites). -/
def systemPrompt (roomName : String) : String :=
  "You are an AI assistant in ChatMind, a collaborative chat platform. " ++
  "You\x27re participating in a room called \"" ++ roomName ++ "\".\n\n" ++
  "INSTRUCTIONS:\n" ++
  "- Be helpful, collaborative, and concise (keep responses under 200 words)\n" ++
  "- Stay focused on topics related to this room: \"" ++ roomName ++ "\"\n" ++
  "- Use a friendly, professional tone\n" ++
  "- Help facilitate productive discussions and decision-making\n" ++
  "- When users mention @AI, respond directly to their request\n" ++
  "- If asked about unrelated topics, politely redirect them back to the " ++
  "room\x27s purpose\n\n" ++
  "Remember: You should focus on topics relevant to \"" ++ roomName ++
  "\". Keep your responses concise and helpful."

/-- JS `arr.slice(-n)`: the last `n` elements (the whole array when shorter). -/
def jsSliceLast (n : Nat) (l : List AIChatMsg) : List AIChatMsg :=
  l.drop (l.length - n)

/-- The `messages` array of the completion request built by
`generateResponse`: the system prompt followed by `messages.slice(-5)`. -/
def buildRequestMessages (history : List AIChatMsg) (roomName : String) :
    List AIChatMsg :=
  { role := "system", content := systemPrompt roomName } :: jsSliceLast 5 history

/-- How a `generateResponse` call can end, seen from its `try` block: the
completion resolved (with possibly missing or empty text), or something threw
— the internal 20 s timer rejecting with the `Error('AI response timeout')`
object, or any other throw (`isErrorObject` records whether the thrown value
is an `Error` instance, which the `catch` branch tests). -/
inductive GenOutcome where
  | success (content : Option String)
  | failure (isErrorObject : Bool) (message : String)
deriving DecidableEq, Repr

/-- Canned fallback for the success path when the API returns no text. -/
def emptyContentFallback : String :=
  "I apologize, but I couldn\x27t generate a response at this time."

/-- Canned fallback for the internal 20 s timeout. -/
def timeoutFallback : String :=
  "I\x27m taking a bit longer than usual to respond. Let me try to help you " ++
  "quickly - could you please rephrase your question?"

/-- Canned fallback for network errors. -/
def networkFallback : String :=
  "I\x27m having network connectivity issues right now. Please try mentioning " ++
  "@AI again in a moment!"

/-- Canned fallback for authentication (401) errors. -/
def authFallback : String :=
  "I\x27m having authentication issues with my AI service. Please try again " ++
  "later or contact support if this persists."

/-- Generic canned fallback. -/
def genericFallback : String :=
  "I\x27m having trouble connecting to my AI service right now. Please try " ++
  "mentioning @AI again in a moment, or feel free to continue your " ++
  "conversation - I\x27ll be back soon!"

/-- `generateResponse(messages, roomName)` with the network outcome explicit:
on success, the completion text or `emptyContentFallback` when it is missing
or empty (JS `content || fallback`); on any throw, the `catch` branch returns
one of four canned strings chosen by failure category and never re-throws. -/
def generateResponse (_history : List AIChatMsg) (_roomName : String)
    (outcome : GenOutcome) : String :=
  match outcome with
  | .success c =>
    match c with
    | some s => if s == "" then emptyContentFallback else s
    | none => emptyContentFallback
  | .failure isErr msg =>
    if isErr && msg == "AI response timeout" then timeoutFallback
    else if isErr && (jsIncludes msg "fetch" || jsIncludes msg "network") then
      networkFallback
    else if isErr && jsIncludes msg "401" then authFallback
    else genericFallback

/-! ## `toggleAIMute`, `joinRoom`, `createRoom` (caller-visible outcomes) -/

/-- `toggleAIMute()` from ChatContext, with the `toggle_room_ai_mute` RPC
outcome explicit. Transcribed from the source: the missing-room/user guard
logs and returns; an RPC error logs and returns; success returns (the
realtime settings subscription updates the UI) — every path resolves
normally, so the caller-visible outcome is `.ok ()` in all branches. -/
def toggleAIMute (currentRoom : Option Room) (user : Option User)
    (rpc : Except DBError RoomSettings) : Except DBError Unit :=
  match currentRoom, user with
  | some _, some _ =>
    match rpc with
    | .error _ => .ok ()
    | .ok _ => .ok ()
  | _, _ => .ok ()

/-- `joinRoom(roomId)` from ChatContext with the two fallible round-trips
explicit: the `join_room_as_participant` RPC and the `rooms` row query. The
downstream loaders (participants, settings, messages) catch internally and
return defaults, so they cannot change the outcome and are not modelled. The
body's catch-all maps any throw to `false`; only a missing Supabase
configuration throws. -/
def joinRoom (configured : Bool) (user : Option User)
    (joinRpc : Except DBError Bool) (roomQuery : Except DBError Room) :
    Except String Bool :=
  if !configured then
    .error "Supabase is not configured. Please check your environment variables."
  else
    match user with
    | none => .ok false
    | some _ =>
      match joinRpc with
      | .error _ => .ok false
      | .ok joinResult =>
        if !joinResult then .ok false
        else
          match roomQuery with
          | .error _ => .ok false
          | .ok _ => .ok true

/-- `createRoom(roomName)` from ChatContext with the
`create_room_with_participant` RPC outcome explicit: a missing configuration
or user, and any RPC failure, are thrown to the caller. -/
def createRoom (configured : Bool) (user : Option User)
    (createRpc : Except DBError Bool) : Except String Unit :=
  if !configured then
    .error "Supabase is not configured. Please check your environment variables."
  else
    match user with
    | none => .error "User not authenticated"
    | some _ =>
      match createRpc with
      | .error e => .error ("Failed to create room: " ++ e.message)
      | .ok createResult =>
        if !createResult then .error "Failed to create room: Unknown error"
        else .ok ()

/-- A concrete user and room for the closed counterexamples. -/
def userA : User := { id := "u1", name := "userA", color := "#FF0000" }

def roomA : Room :=
  { id := "room_1", name := "Planning", messages := [],
    settings := { roomId := "room_1", isAIMuted := false } }

/-! ## Helper lemmas on the JS string primitives -/

theorem listIsPrefix_map (f : Char → Char) :
    ∀ (n h : List Char), listIsPrefix n h = true →
      listIsPrefix (n.map f) (h.map f) = true := by
  intro n
  induction n with
  | nil => intro h _; simp [listIsPrefix, List.map]
  | cons a as ih =>
    intro h hp
    cases h with
    | nil => simp [listIsPrefix] at hp
    | cons b bs =>
      simp only [listIsPrefix, Bool.and_eq_true, beq_iff_eq] at hp
      simp only [List.map, listIsPrefix, Bool.and_eq_true, beq_iff_eq]
      exact ⟨by rw [hp.1], ih bs hp.2⟩

theorem listIsInfix_map (f : Char → Char) (n : List Char) :
    ∀ (h : List Char), listIsInfix n h = true →
      listIsInfix (n.map f) (h.map f) = true := by
  intro h
  induction h with
  | nil =>
    intro hi
    have hn : n = [] := by
      cases n with
      | nil => rfl
      | cons a as => simp [listIsInfix, List.isEmpty] at hi
    subst hn
    rfl
  | cons c rest ih =>
    intro hi
    simp only [listIsInfix, Bool.or_eq_true] at hi
    rcases hi with hp | hrest
    · simp only [List.map, listIsInfix, Bool.or_eq_true]
      exact Or.inl (listIsPrefix_map f n (c :: rest) hp)
    · simp only [List.map, listIsInfix, Bool.or_eq_true]
      exact Or.inr (ih hrest)

/-- The code's AI-mention check is equivalent to "the lowercased content
contains the literal substring `@ai`": the exact-case `"@AI"` disjunct is
absorbed by the lowercased disjunct. -/
theorem mentionsAI_iff (content : String) :
    mentionsAI content = true ↔ jsIncludesLower content "@ai" = true := by
  constructor
  · intro hm
    simp only [mentionsAI, Bool.or_eq_true] at hm
    rcases hm with hup | hlow
    · have := listIsInfix_map Char.toLower ("@AI".toList) content.toList hup
      simpa [jsIncludes, jsIncludesLower, jsToLowerList] using this
    · exact hlow
  · intro hlow
    simp [mentionsAI, hlow]

/-! ## C1 — idempotent dedup across interleavings -/

/-- C1: for every interleaving of direct-call reconciliation and change-event
arrival of the same durable id, the final list has exactly one entry with that
id, the second path being a no-op.

This FAILS on the code: starting from the optimistic state `[provMsg]`, the
order "reconciliation first, event second" yields one entry with the durable
id, but the order "event first, reconciliation second" yields two — the event
handler's dedup compares against the durable id only (the provisional entry
does not match, so the durable message is appended), and the reconciliation
`map` then turns the still-present provisional entry into a second copy. -/
theorem c1_interleaving_duplicates :
    countWithId
      (handleInsertEvent
        (reconcileProvisional [provMsg] provMsg.id (rowToMessage durableRow))
        (rowToMessage durableRow)) durableRow.id = 1
    ∧
    countWithId
      (reconcileProvisional
        (handleInsertEvent [provMsg] (rowToMessage durableRow))
        provMsg.id (rowToMessage durableRow)) durableRow.id = 2 := by
  constructor <;> rfl

/-! ## C4 — AI-turn trigger condition -/

/-- C4: `sendMessage` enters the AI-turn sub-protocol iff the content contains
the case-insensitive literal substring `"@ai"` AND the room's AI is not muted
(first conjunct); when the mention is present but AI is muted, no AI turn is
entered, no error is surfaced, and the busy flag is untouched (second
conjunct, with `muted := true`). -/
theorem c4_ai_trigger_iff :
    (∀ (u : User) (rid rname : String) (msgs : List ChatMessage) (muted : Bool)
       (rs : List Room) (p : List String) (air : Bool)
       (content tempId : String) (now : Int) (row : DBRow),
      (sendMessage
        { user := some u,
          currentRoom := some { id := rid, name := rname, messages := msgs,
                                settings := { roomId := rid, isAIMuted := muted } },
          rooms := rs, pending := p, isAIResponding := air,
          supabaseConfigured := true }
        content tempId now (.ok row)).aiTriggered = true
        ↔ (jsIncludesLower content "@ai" = true ∧ muted = false))
    ∧
    (∀ (u : User) (rid rname : String) (msgs : List ChatMessage)
       (rs : List Room) (p : List String) (air : Bool)
       (content tempId : String) (now : Int) (row : DBRow),
      (sendMessage
        { user := some u,
          currentRoom := some { id := rid, name := rname, messages := msgs,
                                settings := { roomId := rid, isAIMuted := true } },
          rooms := rs, pending := p, isAIResponding := air,
          supabaseConfigured := true }
        content tempId now (.ok row)).aiTriggered = false
      ∧ (sendMessage
          { user := some u,
            currentRoom := some { id := rid, name := rname, messages := msgs,
                                  settings := { roomId := rid, isAIMuted := true } },
            rooms := rs, pending := p, isAIResponding := air,
            supabaseConfigured := true }
          content tempId now (.ok row)).thrown = none
      ∧ (sendMessage
          { user := some u,
            currentRoom := some { id := rid, name := rname, messages := msgs,
                                  settings := { roomId := rid, isAIMuted := true } },
            rooms := rs, pending := p, isAIResponding := air,
            supabaseConfigured := true }
          content tempId now (.ok row)).state.isAIResponding = air) := by
  constructor
  · intro u rid rname msgs muted rs p air content tempId now row
    show (!muted && mentionsAI content) = true ↔ _
    simp only [Bool.and_eq_true, Bool.not_eq_true']
    rw [mentionsAI_iff]
    exact and_comm
  · intro u rid rname msgs rs p air content tempId now row
    exact ⟨rfl, rfl, rfl⟩

/-! ## C3 — optimistic rollback on persistence failure -/

/-- C3: when the persistence request fails, `sendMessage` removes the
provisional message again (the final message list equals the pre-call list)
and re-raises the storage error to the caller. `hfresh` states that the
generated provisional id does not collide with any id already in the list
(the code draws it from time + randomness under a `temp_` prefix). -/
theorem c3_rollback (u : User) (room : Room) (rs : List Room) (p : List String)
    (air : Bool) (content tempId : String) (now : Int) (e : DBError)
    (hfresh : ∀ m ∈ room.messages, m.id ≠ tempId) :
    (sendMessage { user := some u, currentRoom := some room, rooms := rs,
                   pending := p, isAIResponding := air, supabaseConfigured := true }
      content tempId now (.error e)).thrown = some e
    ∧ (sendMessage { user := some u, currentRoom := some room, rooms := rs,
                     pending := p, isAIResponding := air,
                     supabaseConfigured := true }
      content tempId now (.error e)).state.currentRoom = some room := by
  have h1 : room.messages.filter (fun m => m.id != tempId) = room.messages :=
    List.filter_eq_self.mpr (fun m hm => by simpa [bne_iff_ne] using hfresh m hm)
  refine ⟨rfl, ?_⟩
  simp only [sendMessage]
  rw [List.filter_append, h1]
  simp

/-- Witness for C3 at a concrete input. -/
theorem c3_rollback_witness :
    (sendMessage { user := some userA,
                   currentRoom := some { roomA with messages := [provMsg] },
                   rooms := [], pending := [], isAIResponding := false,
                   supabaseConfigured := true }
      "hello" "temp_9" 1000 (.error ⟨"boom"⟩)).thrown = some ⟨"boom"⟩
    ∧ (sendMessage { user := some userA,
                     currentRoom := some { roomA with messages := [provMsg] },
                     rooms := [], pending := [], isAIResponding := false,
                     supabaseConfigured := true }
      "hello" "temp_9" 1000 (.error ⟨"boom"⟩)).state.currentRoom
        = some { roomA with messages := [provMsg] } :=
  c3_rollback userA { roomA with messages := [provMsg] }
    [] [] false "hello" "temp_9" 1000 ⟨"boom"⟩ (by decide)

/-! ## C9 — precondition guard -/

/-- C9: a `sendMessage` call with no authenticated user or no joined room
returns without throwing and leaves the whole client state unchanged. -/
theorem c9_guard_noop :
    (∀ (cr : Option Room) (rs : List Room) (p : List String) (air cfg : Bool)
       (content tempId : String) (now : Int) (res : Except DBError DBRow),
      sendMessage { user := none, currentRoom := cr, rooms := rs, pending := p,
                    isAIResponding := air, supabaseConfigured := cfg }
        content tempId now res
        = { state := { user := none, currentRoom := cr, rooms := rs,
                       pending := p, isAIResponding := air,
                       supabaseConfigured := cfg },
            thrown := none, aiTriggered := false })
    ∧
    (∀ (uo : Option User) (rs : List Room) (p : List String) (air cfg : Bool)
       (content tempId : String) (now : Int) (res : Except DBError DBRow),
      sendMessage { user := uo, currentRoom := none, rooms := rs, pending := p,
                    isAIResponding := air, supabaseConfigured := cfg }
        content tempId now res
        = { state := { user := uo, currentRoom := none, rooms := rs,
                       pending := p, isAIResponding := air,
                       supabaseConfigured := cfg },
            thrown := none, aiTriggered := false }) := by
  constructor
  · intro cr rs p air cfg content tempId now res
    cases cr <;> rfl
  · intro uo rs p air cfg content tempId now res
    cases uo <;> rfl

/-! ## C2 — reply-target selection -/

/-- When the triggering content mentions the AI, the first scanning loop
reduces to "first non-AI element" on the reversed list. -/
theorem findReplyTargetRev_mention (content : String)
    (hm : mentionsAI content = true) :
    ∀ l : List ChatMessage,
      findReplyTargetRev content l = l.find? (fun m => !m.isAI) := by
  intro l
  induction l with
  | nil => rfl
  | cons m rest ih =>
    cases hAI : m.isAI with
    | true => simp [findReplyTargetRev, hAI, List.find?_cons, ih]
    | false => simp [findReplyTargetRev, hAI, hm, List.find?_cons]

/-- The fallback loop is also "first non-AI element". -/
theorem firstNonAIRev_eq_find? :
    ∀ l : List ChatMessage, firstNonAIRev l = l.find? (fun m => !m.isAI) := by
  intro l
  induction l with
  | nil => rfl
  | cons m rest ih =>
    cases hAI : m.isAI with
    | true => simp [firstNonAIRev, hAI, List.find?_cons, ih]
    | false => simp [firstNonAIRev, hAI, List.find?_cons]

/-- C2 as amended: when the content contains the AI mention, `findReplyTarget`
returns the most recent (last) non-AI message of the list it is handed — and
`sendMessage` hands it the current message list, which by then contains the
triggering message itself, so on the spec's three-message history the selected
target is the triggering message (authored by userA), not userB's reply. -/
theorem c2_reply_target_amended :
    (∀ (content : String) (msgs : List ChatMessage),
      mentionsAI content = true →
        findReplyTarget content msgs
          = (msgs.filter (fun m => !m.isAI)).getLast?)
    ∧ findReplyTarget "@AI can you help?" [msgPlan, msgNotSure, msgTrigger]
        = some msgTrigger := by
  constructor
  · intro content msgs hm
    unfold findReplyTarget
    rw [findReplyTargetRev_mention content hm]
    have hchain : msgs.reverse.find? (fun m => !m.isAI)
        = (msgs.filter (fun m => !m.isAI)).getLast? := by
      rw [← List.filter_head? _ msgs.reverse, List.filter_reverse,
        List.head?_reverse]
    cases hf : msgs.reverse.find? (fun m => !m.isAI) with
    | some m => rw [← hchain, hf]
    | none => rw [firstNonAIRev_eq_find?, hf, ← hchain, hf]
  · rfl

/-- Witness for the amended C2 at the spec's concrete history. -/
theorem c2_reply_target_witness :
    mentionsAI "@AI can you help?" = true
    ∧ findReplyTarget "@AI can you help?" [msgPlan, msgNotSure, msgTrigger]
        = ([msgPlan, msgNotSure, msgTrigger].filter (fun m => !m.isAI)).getLast? :=
  ⟨by decide,
    c2_reply_target_amended.1 "@AI can you help?" [msgPlan, msgNotSure, msgTrigger]
      (by decide)⟩

/-- C2 counterexample: on the spec's history (with the triggering message
present in the list, as `sendMessage` passes it), the selected target is the
triggering message authored by userA, not userB's "not sure". -/
theorem c2_reply_target_counterexample :
    findReplyTarget "@AI can you help?" [msgPlan, msgNotSure, msgTrigger]
        = some msgTrigger
    ∧ msgTrigger.userName = "userA"
    ∧ findReplyTarget "@AI can you help?" [msgPlan, msgNotSure, msgTrigger]
        ≠ some msgNotSure := by
  refine ⟨rfl, rfl, ?_⟩
  decide

/-! ## C6 — message-based presence window -/

/-- C6: a participant is online iff their most recent non-AI message is
strictly within 10 minutes (600 s) of now, evaluated at read time; a user
with no non-AI messages is offline; the spec's two boundary instances
(`now - 10min - 1s` offline, `now - 9min` online) hold for every `now`. -/
theorem c6_presence_window :
    (∀ (msgs : List DBMsgRow) (uid : String) (now t : Int),
      lastMessageTime msgs uid = some t →
        (isOnline msgs uid now = true ↔ now - t < 600))
    ∧ (∀ (msgs : List DBMsgRow) (uid : String) (now : Int),
        lastMessageTime msgs uid = none → isOnline msgs uid now = false)
    ∧ (∀ now : Int,
        isOnline [{ userId := "u", isAI := false, createdAt := now - 601 }] "u" now
          = false)
    ∧ (∀ now : Int,
        isOnline [{ userId := "u", isAI := false, createdAt := now - 540 }] "u" now
          = true) := by
  refine ⟨?_, ?_, ?_, ?_⟩
  · intro msgs uid now t h
    simp only [isOnline]
    rw [h]
    simp only [decide_eq_true_eq]
    omega
  · intro msgs uid now h
    simp only [isOnline]
    rw [h]
  · intro now
    have h : isOnline [{ userId := "u", isAI := false, createdAt := now - 601 }] "u" now
        = decide (now - 601 > now - 600) := rfl
    rw [h]
    simp only [decide_eq_false_iff_not]
    omega
  · intro now
    have h : isOnline [{ userId := "u", isAI := false, createdAt := now - 540 }] "u" now
        = decide (now - 540 > now - 600) := rfl
    rw [h]
    simp only [decide_eq_true_eq]
    omega

/-- Witness for C6 at concrete inputs. -/
theorem c6_presence_window_witness :
    lastMessageTime [{ userId := "u", isAI := false, createdAt := 500 }] "u" = some 500
    ∧ (isOnline [{ userId := "u", isAI := false, createdAt := 500 }] "u" 700 = true
        ↔ (700 : Int) - 500 < 600)
    ∧ lastMessageTime [] "u" = none
    ∧ isOnline [] "u" 700 = false :=
  ⟨rfl,
    c6_presence_window.1 [{ userId := "u", isAI := false, createdAt := 500 }]
      "u" 700 500 rfl,
    rfl, c6_presence_window.2.1 [] "u" 700 rfl⟩

/-! ## C7 — AI Responder fallbacks -/

/-- C7: `generateResponse` maps every internal failure (timeout, network,
auth, anything else) to one of the four canned fallback strings, and for every
outcome — including failures and missing/empty completion text — returns a
non-empty string; the function is total, so no exception reaches the caller. -/
theorem c7_generate_fallbacks :
    (∀ (history : List AIChatMsg) (roomName : String) (isErr : Bool) (msg : String),
      generateResponse history roomName (.failure isErr msg) = timeoutFallback
      ∨ generateResponse history roomName (.failure isErr msg) = networkFallback
      ∨ generateResponse history roomName (.failure isErr msg) = authFallback
      ∨ generateResponse history roomName (.failure isErr msg) = genericFallback)
    ∧ (∀ (history : List AIChatMsg) (roomName : String) (outcome : GenOutcome),
        generateResponse history roomName outcome ≠ "") := by
  constructor
  · intro history roomName isErr msg
    have hgen : generateResponse history roomName (.failure isErr msg)
        = (if isErr && msg == "AI response timeout" then timeoutFallback
          else if isErr && (jsIncludes msg "fetch" || jsIncludes msg "network")
            then networkFallback
          else if isErr && jsIncludes msg "401" then authFallback
          else genericFallback) := rfl
    rw [hgen]
    split_ifs <;> simp
  · intro history roomName outcome
    cases outcome with
    | success c =>
      cases c with
      | none =>
        show emptyContentFallback ≠ ""
        decide
      | some s =>
        show (if s == "" then emptyContentFallback else s) ≠ ""
        cases hs : s == "" with
        | true =>
          simp only [if_pos]
          show emptyContentFallback ≠ ""
          decide
        | false =>
          simp only [if_neg, Bool.false_eq_true, not_false_iff]
          intro hcontra
          rw [hcontra] at hs
          simp at hs
    | failure isErr msg =>
      show (if _ then timeoutFallback else if _ then networkFallback
        else if _ then authFallback else genericFallback) ≠ ""
      split_ifs <;> decide

/-! ## C10 — context window sent to the model -/

/-- C10: the completion request is the system prompt followed by exactly the
last 5 history entries (all of them when fewer): the tail of the request list
is `slice(-5)` of the history, its length is `min 5 (length history)` (so at
most 5 of the up-to-10 context messages the Synchronizer supplies), and it is
a suffix of the history. -/
theorem c10_request_window :
    ∀ (history : List AIChatMsg) (roomName : String),
      (buildRequestMessages history roomName).head?
          = some { role := "system", content := systemPrompt roomName }
      ∧ (buildRequestMessages history roomName).tail = jsSliceLast 5 history
      ∧ (buildRequestMessages history roomName).tail.length = min 5 history.length
      ∧ List.IsSuffix ((buildRequestMessages history roomName).tail) history := by
  intro history roomName
  refine ⟨rfl, rfl, ?_, ?_⟩
  · show (history.drop (history.length - 5)).length = min 5 history.length
    rw [List.length_drop]
    omega
  · exact List.drop_suffix _ _

/-! ## C8 — failure propagation of the synchronous calls -/

/-- C8 as amended: `joinRoom` reports failure as an explicit `false` result,
`createRoom` throws on failure, `sendMessage` re-throws a persistence failure
— but `toggleAIMute` resolves normally on every input, including a failing
RPC: its failures are only logged, never propagated to the caller. -/
theorem c8_propagation_amended :
    (∀ (u : User) (e : DBError) (rq : Except DBError Room),
      joinRoom true (some u) (.error e) rq = .ok false)
    ∧ (∀ (u : User) (e : DBError),
      createRoom true (some u) (.error e)
        = .error ("Failed to create room: " ++ e.message))
    ∧ (∀ (u : User) (room : Room) (rs : List Room) (p : List String) (air : Bool)
         (content tempId : String) (now : Int) (e : DBError),
      (sendMessage { user := some u, currentRoom := some room, rooms := rs,
                     pending := p, isAIResponding := air,
                     supabaseConfigured := true }
        content tempId now (.error e)).thrown = some e)
    ∧ (∀ (cr : Option Room) (uo : Option User) (rpc : Except DBError RoomSettings),
      toggleAIMute cr uo rpc = .ok ()) := by
  refine ⟨?_, ?_, ?_, ?_⟩
  · intro u e rq; rfl
  · intro u e; rfl
  · intro u room rs p air content tempId now e; rfl
  · intro cr uo rpc
    cases cr <;> cases uo <;> cases rpc <;> rfl

/-- C8 counterexample: a failing `toggle_room_ai_mute` RPC still lets
`toggleAIMute` resolve normally — the caller sees neither an explicit failure
result nor an exception. -/
theorem c8_toggle_swallows_failure :
    toggleAIMute (some roomA) (some userA)
        (.error { message := "permission denied" }) = Except.ok ()
    ∧ toggleAIMute (some roomA) (some userA)
        (.error { message := "permission denied" })
      ≠ Except.error { message := "permission denied" } := by
  refine ⟨rfl, ?_⟩
  intro h
  injection h

/-! ## C5 — mention detection -/

/-- Soundness of the backward scan: a returned mention start is at or before
the examined index, holds an `@` that is at offset 0 or right after
whitespace, and no whitespace was crossed on the way down to it. -/
theorem scanBack_sound (text : List Char) :
    ∀ (i s : Nat), scanBack text i = some s →
      s ≤ i ∧ charAt text s = '@' ∧
      (s = 0 ∨ jsIsSpace (charAt text (s - 1)) = true) ∧
      (∀ j, s < j → j ≤ i → jsIsSpace (charAt text j) = false) := by
  intro i
  induction i with
  | zero =>
    intro s h
    simp only [scanBack] at h
    by_cases hc : (charAt text 0 == '@') = true
    · rw [if_pos hc] at h
      obtain rfl : s = 0 := (Option.some.inj h).symm
      exact ⟨le_refl 0, beq_iff_eq.mp hc, Or.inl rfl, fun j hj1 hj2 => by omega⟩
    · rw [if_neg hc] at h
      exact Option.noConfusion h
  | succ i ih =>
    intro s h
    simp only [scanBack] at h
    by_cases hc : (charAt text (i + 1) == '@') = true
    · rw [if_pos hc] at h
      by_cases hw : jsIsSpace (charAt text i) = true
      · rw [if_pos hw] at h
        obtain rfl : s = i + 1 := (Option.some.inj h).symm
        refine ⟨le_refl _, beq_iff_eq.mp hc, Or.inr (by simpa using hw), ?_⟩
        intro j hj1 hj2
        omega
      · rw [if_neg hw] at h
        obtain ⟨h1, h2, h3, h4⟩ := ih s h
        refine ⟨Nat.le_succ_of_le h1, h2, h3, ?_⟩
        intro j hj1 hj2
        by_cases hj : j ≤ i
        · exact h4 j hj1 hj
        · have hji : j = i + 1 := by omega
          subst hji
          rw [beq_iff_eq.mp hc]
          decide
    · rw [if_neg hc] at h
      by_cases hsp : jsIsSpace (charAt text (i + 1)) = true
      · rw [if_pos hsp] at h
        exact Option.noConfusion h
      · rw [if_neg hsp] at h
        obtain ⟨h1, h2, h3, h4⟩ := ih s h
        refine ⟨Nat.le_succ_of_le h1, h2, h3, ?_⟩
        intro j hj1 hj2
        by_cases hj : j ≤ i
        · exact h4 j hj1 hj
        · have hji : j = i + 1 := by omega
          subst hji
          exact Bool.not_eq_true _ ▸ Bool.eq_false_iff.mpr hsp

/-- Completeness of the backward scan: a position satisfying the declarative
trigger condition is found by the scan. -/
theorem scanBack_complete (text : List Char) :
    ∀ (i s : Nat), s ≤ i → charAt text s = '@' →
      (s = 0 ∨ jsIsSpace (charAt text (s - 1)) = true) →
      (∀ j, s < j → j ≤ i → jsIsSpace (charAt text j) = false) →
      scanBack text i = some s := by
  intro i
  induction i with
  | zero =>
    intro s hsi hat hval hnw
    obtain rfl : s = 0 := Nat.le_zero.mp hsi
    simp only [scanBack]
    rw [if_pos (beq_iff_eq.mpr hat)]
  | succ i ih =>
    intro s hsi hat hval hnw
    rcases Nat.lt_or_eq_of_le hsi with hlt | heq
    · have hsle : s ≤ i := Nat.lt_succ_iff.mp hlt
      have hrec : scanBack text i = some s :=
        ih s hsle hat hval (fun j hj1 hj2 => hnw j hj1 (Nat.le_succ_of_le hj2))
      simp only [scanBack]
      by_cases hc : (charAt text (i + 1) == '@') = true
      · rw [if_pos hc]
        by_cases hw : jsIsSpace (charAt text i) = true
        · exfalso
          rcases Nat.lt_or_eq_of_le hsle with hlt2 | heq2
          · rw [hnw i hlt2 (Nat.le_succ i)] at hw
            exact Bool.false_ne_true hw
          · rw [← heq2, hat] at hw
            exact absurd hw (by decide)
        · rw [if_neg hw]
          exact hrec
      · rw [if_neg hc]
        have hns : ¬ jsIsSpace (charAt text (i + 1)) = true := by
          rw [hnw (i + 1) hlt (le_refl _)]
          exact Bool.false_ne_true
        rw [if_neg hns]
        exact hrec
    · subst heq
      simp only [scanBack]
      rw [if_pos (beq_iff_eq.mpr hat)]
      rcases hval with h0 | hws
      · exact absurd h0 (Nat.succ_ne_zero i)
      · rw [if_pos (by simpa using hws)]

/-- `jsIsSpace` holds of the characters the scan certifies whitespace-free,
so the transcribed dead guard `query.includes(' ')` can never fire. -/
theorem jsSlice_no_space (text : List Char) (s c : Nat)
    (hnw : ∀ j, s < j → j < c + 1 → jsIsSpace (charAt text j) = false) :
    (jsSlice text (s + 1) (c + 1)).contains ' ' = false := by
  have hmem : ' ' ∉ jsSlice text (s + 1) (c + 1) := by
    intro hm
    obtain ⟨i, hi⟩ := List.mem_iff_getElem?.mp hm
    unfold jsSlice at hi
    rw [List.getElem?_take] at hi
    by_cases hilt : i < c + 1 - (s + 1)
    · rw [if_pos hilt, List.getElem?_drop] at hi
      have hcharAt : charAt text (s + 1 + i) = ' ' := by
        unfold charAt
        rw [List.getD_eq_getElem?_getD, hi]
        rfl
      have hfalse := hnw (s + 1 + i) (by omega) (by omega)
      rw [hcharAt] at hfalse
      exact absurd hfalse (by decide)
    · rw [if_neg hilt] at hi
      exact Option.noConfusion hi
  simp [hmem]

/-- C5: `detectMention` yields an active trigger exactly when scanning
backward from the cursor reaches an `@` at position 0 or immediately after
whitespace before hitting any whitespace, and the query is the text between
that `@` and the cursor; plus the spec's three concrete examples. -/
theorem c5_detect_mention :
    (∀ (text : List Char) (cursor : Nat) (q : List Char),
      detectMention text cursor = some q
        ↔ ∃ s, ActiveTriggerAt text cursor s ∧ q = jsSlice text (s + 1) cursor)
    ∧ detectMention "hi @al".toList 6 = some "al".toList
    ∧ detectMention "hi @al ice".toList 10 = none
    ∧ detectMention "@AI please help".toList 3 = some "AI".toList := by
  refine ⟨?_, by decide, by decide, by decide⟩
  intro text cursor q
  cases cursor with
  | zero =>
    constructor
    · intro h
      exact Option.noConfusion h
    · rintro ⟨s, ⟨hs, _⟩, _⟩
      omega
  | succ c =>
    constructor
    · intro h
      cases hsb : scanBack text c with
      | none =>
        simp only [detectMention, hsb] at h
        exact Option.noConfusion h
      | some s =>
        obtain ⟨h1, h2, h3, h4⟩ := scanBack_sound text c s hsb
        have hguard : (jsSlice text (s + 1) (c + 1)).contains ' ' = false :=
          jsSlice_no_space text s c (fun j hj1 hj2 => h4 j hj1 (by omega))
        simp only [detectMention, hsb, hguard] at h
        simp only [Bool.false_eq_true, if_false, Option.some.injEq] at h
        exact ⟨s, ⟨by omega, h2, h3, fun j hj1 hj2 => h4 j hj1 (by omega)⟩, h.symm⟩
    · rintro ⟨s, ⟨hslt, hat, hval, hnw⟩, hq⟩
      have hsb : scanBack text c = some s :=
        scanBack_complete text c s (by omega) hat hval
          (fun j hj1 hj2 => hnw j hj1 (by omega))
      have hguard : (jsSlice text (s + 1) (c + 1)).contains ' ' = false :=
        jsSlice_no_space text s c hnw
      simp only [detectMention, hsb, hguard]
      simp [hq]
